import Mathlib

/-!
Verification of the flow-extraction and correlation core of the tor-unveil
backend (files `backend/pcap_ingestion.py`, `backend/correlation_engine.py`,
`backend/database.py`, `backend/config.py`), against its natural-language
specification.

Modelling conventions:
* Python floats are modelled as exact rationals (`ℚ`); `round(x, 4)` is
  modelled as round-half-to-even at 4 decimal places, matching Python's
  `round` on exact values.
* Packet capture timestamps (scapy `pkt.time`) are rationals (seconds).
* Python `int()` applied to a real number truncates toward zero.
* Database tables are lists of records in insertion order; SQL queries of
  the engine are modelled by the corresponding list operations.
-/

namespace TorUnveil

/-- Truncation toward zero, the behaviour of Python's `int()` on a number:
floor for nonnegative arguments, ceiling for negative ones. -/
def truncTowardZero (q : ℚ) : ℤ :=
  if 0 ≤ q then ⌊q⌋ else ⌈q⌉

/-- Round-half-to-even to an integer, the behaviour of Python's `round`
on an exact value. -/
def roundHalfEven (q : ℚ) : ℤ :=
  let f := ⌊q⌋
  let r := q - (f : ℚ)
  if r < 1/2 then f
  else if 1/2 < r then f + 1
  else if f % 2 = 0 then f else f + 1

/-- Python's `round(x, 4)`: round-half-to-even at 4 decimal places. -/
def round4 (q : ℚ) : ℚ :=
  (roundHalfEven (q * 10000) : ℚ) / 10000

/-! ### SHA-256 (as used by `hashlib.sha256` in `calculate_flow_fingerprint`)

A byte-level implementation over `Nat`, with all word arithmetic taken
modulo `2 ^ 32`. -/

namespace SHA256

/-- The word modulus `2 ^ 32`. -/
def w32 : Nat := 4294967296

/-- Right rotation of a 32-bit word by `n` bits. -/
def rotr (n x : Nat) : Nat := ((x >>> n) ||| (x <<< (32 - n))) % w32

/-- Logical right shift. -/
def shr (n x : Nat) : Nat := x >>> n

/-- Big sigma-0 round function. -/
def bigS0 (x : Nat) : Nat := (rotr 2 x) ^^^ (rotr 13 x) ^^^ (rotr 22 x)

/-- Big sigma-1 round function. -/
def bigS1 (x : Nat) : Nat := (rotr 6 x) ^^^ (rotr 11 x) ^^^ (rotr 25 x)

/-- Small sigma-0 message-schedule function. -/
def smallS0 (x : Nat) : Nat := (rotr 7 x) ^^^ (rotr 18 x) ^^^ (shr 3 x)

/-- Small sigma-1 message-schedule function. -/
def smallS1 (x : Nat) : Nat := (rotr 17 x) ^^^ (rotr 19 x) ^^^ (shr 10 x)

/-- Choice function; `x ^^^ (w32 - 1)` is bitwise complement on 32-bit words. -/
def ch (x y z : Nat) : Nat := (x &&& y) ^^^ ((x ^^^ (w32 - 1)) &&& z)

/-- Majority function. -/
def maj (x y z : Nat) : Nat := (x &&& y) ^^^ (x &&& z) ^^^ (y &&& z)

/-- The 64 round constants (FIPS 180-4 section 4.2.2), written in decimal. -/
def K : List Nat :=
  [1116352408, 1899447441, 3049323471, 3921009573, 961987163,
   1508970993, 2453635748, 2870763221, 3624381080, 310598401,
   607225278, 1426881987, 1925078388, 2162078206, 2614888103,
   3248222580, 3835390401, 4022224774, 264347078, 604807628,
   770255983, 1249150122, 1555081692, 1996064986, 2554220882,
   2821834349, 2952996808, 3210313671, 3336571891, 3584528711,
   113926993, 338241895, 666307205, 773529912, 1294757372,
   1396182291, 1695183700, 1986661051, 2177026350, 2456956037,
   2730485921, 2820302411, 3259730800, 3345764771, 3516065817,
   3600352804, 4094571909, 275423344, 430227734, 506948616,
   659060556, 883997877, 958139571, 1322822218, 1537002063,
   1747873779, 1955562222, 2024104815, 2227730452, 2361852424,
   2428436474, 2756734187, 3204031479, 3329325298]

/-- Working state: eight 32-bit words. -/
structure State where
  a : Nat
  b : Nat
  c : Nat
  d : Nat
  e : Nat
  f : Nat
  g : Nat
  hh : Nat
deriving DecidableEq

/-- Initial hash value (FIPS 180-4 section 5.3.3), written in decimal. -/
def H0 : State :=
  ⟨1779033703, 3144134277, 1013904242, 2773480762,
   1359893119, 2600822924, 528734635, 1541459225⟩

/-- Merkle–Damgård padding: append `0x80`, zero bytes, and the 64-bit
big-endian bit length, reaching a multiple of 64 bytes. -/
def pad (msg : List Nat) : List Nat :=
  let l := msg.length
  let k := (64 - (l + 9) % 64) % 64
  msg ++ [128] ++ List.replicate k 0 ++
    (List.range 8).map (fun i => ((8 * l) >>> (8 * (7 - i))) % 256)

/-- Split a byte list into 64-byte blocks (fuel-driven structural recursion). -/
def toBlocksAux : Nat → List Nat → List (List Nat)
  | 0, _ => []
  | _, [] => []
  | n + 1, x :: xs => ((x :: xs).take 64) :: toBlocksAux n ((x :: xs).drop 64)

/-- Split a byte list into 64-byte blocks. -/
def toBlocks (l : List Nat) : List (List Nat) := toBlocksAux l.length l

/-- The first 16 words of the message schedule: the block bytes, big-endian. -/
def initWords (block : List Nat) : List Nat :=
  (List.range 16).map (fun i =>
    block.getD (4 * i) 0 * 16777216 + block.getD (4 * i + 1) 0 * 65536 +
    block.getD (4 * i + 2) 0 * 256 + block.getD (4 * i + 3) 0)

/-- Extend the message schedule by `n` further words. -/
def extendWords : Nat → List Nat → List Nat
  | 0, ws => ws
  | n + 1, ws =>
    let i := ws.length
    extendWords n (ws ++
      [(smallS1 (ws.getD (i - 2) 0) + ws.getD (i - 7) 0 +
        smallS0 (ws.getD (i - 15) 0) + ws.getD (i - 16) 0) % w32])

/-- The full 64-word message schedule of a block. -/
def schedule (block : List Nat) : List Nat := extendWords 48 (initWords block)

/-- One compression round for a `(round constant, schedule word)` pair. -/
def round (st : State) (kw : Nat × Nat) : State :=
  let t1 := (st.hh + bigS1 st.e + ch st.e st.f st.g + kw.1 + kw.2) % w32
  let t2 := (bigS0 st.a + maj st.a st.b st.c) % w32
  ⟨(t1 + t2) % w32, st.a, st.b, st.c, (st.d + t1) % w32, st.e, st.f, st.g⟩

/-- Process one 64-byte block. -/
def processBlock (st : State) (block : List Nat) : State :=
  let r := (K.zip (schedule block)).foldl round st
  ⟨(st.a + r.a) % w32, (st.b + r.b) % w32, (st.c + r.c) % w32,
   (st.d + r.d) % w32, (st.e + r.e) % w32, (st.f + r.f) % w32,
   (st.g + r.g) % w32, (st.hh + r.hh) % w32⟩

/-- A hexadecimal digit character, lowercase as in Python's `hexdigest`. -/
def hexChar (n : Nat) : Char :=
  if n < 10 then Char.ofNat (48 + n) else Char.ofNat (87 + n)

/-- The 8 lowercase hex characters of a 32-bit word, most significant first. -/
def wordHex (x : Nat) : List Char :=
  (List.range 8).map (fun i => hexChar ((x >>> (4 * (7 - i))) % 16))

/-- Model of `hashlib.sha256(bytes).hexdigest()`: the 64-character lowercase
hexadecimal SHA-256 digest of a byte list. -/
def hexdigest (msg : List Nat) : String :=
  let st := (toBlocks (pad msg)).foldl processBlock H0
  String.mk (wordHex st.a ++ wordHex st.b ++ wordHex st.c ++ wordHex st.d ++
             wordHex st.e ++ wordHex st.f ++ wordHex st.g ++ wordHex st.hh)

end SHA256

/-- The UTF-8 bytes of a string, as `str.encode()` produces in Python. -/
def strBytes (s : String) : List Nat :=
  s.toUTF8.toList.map (fun b => b.toNat)

/-! ### Flow fingerprinting (`PCAPIngestion.calculate_flow_fingerprint`) -/

/-- A decoded packet as the fingerprint code reads it: `len(pkt)` (total wire
length in bytes) and `pkt.time` (capture timestamp in fractional seconds). -/
structure Packet where
  wirelen : Nat
  time : ℚ
deriving DecidableEq

/-- The packet-size sequence: `[len(pkt) for pkt in packets[:20]]`. -/
def packetSizes (packets : List Packet) : List Nat :=
  (packets.take 20).map (fun p => p.wirelen)

/-- The inter-arrival times in whole milliseconds over the first-20 window:
`int(float(packets[i].time - packets[i-1].time) * 1000)` for
`i in range(1, min(len(packets), 20))`, and `[]` when there is at most one
packet. -/
def interArrivalTimes (packets : List Packet) : List ℤ :=
  if 1 < packets.length then
    List.zipWith (fun prev next => truncTowardZero ((next.time - prev.time) * 1000))
      (packets.take 20) ((packets.take 20).tail)
  else []

/-- The serialized fingerprint string
`f"sizes:{','.join(map(str, sizes))};times:{','.join(map(str, times))}"`. -/
def fingerprintString (packets : List Packet) : String :=
  "sizes:" ++ String.intercalate "," ((packetSizes packets).map toString) ++
  ";times:" ++ String.intercalate "," ((interArrivalTimes packets).map toString)

/-- Model of `PCAPIngestion.calculate_flow_fingerprint`: empty string for an empty
packet group, otherwise the first 32 hex characters of the SHA-256 digest of
the serialized size/timing string. -/
def calculate_flow_fingerprint (packets : List Packet) : String :=
  if packets = [] then ""
  else (SHA256.hexdigest (strBytes (fingerprintString packets))).take 32

/-- The fingerprint as the specification words it, for the refinement
claim: an empty packet group yields the empty string; otherwise take the
first 20 packets in capture order, let `sizes` be their wire lengths and
`times` the successive inter-arrival times in milliseconds truncated
toward zero over that window (length `min(20, count) - 1`), serialize as
`"sizes:s1,s2,...;times:t1,t2,..."`, and keep the first 32 hex characters
of the SHA-256 digest. -/
def fingerprint_spec (packets : List Packet) : String :=
  if packets = [] then ""
  else
    let sizes := (packets.take 20).map (fun p => p.wirelen)
    let times := (List.range (min 20 packets.length - 1)).map (fun i =>
      truncTowardZero (((packets.getD (i + 1) ⟨0, 0⟩).time -
        (packets.getD i ⟨0, 0⟩).time) * 1000))
    (SHA256.hexdigest (strBytes ("sizes:" ++
      String.intercalate "," (sizes.map toString) ++ ";times:" ++
      String.intercalate "," (times.map toString)))).take 32

/-! ### Configuration (`config.py`, correlation settings) -/

/-- Setting `Config.TIME_WINDOW_SECONDS` (only recorded in the evidence payload). -/
def TIME_WINDOW_SECONDS : ℕ := 300

/-- Setting `Config.MIN_CONFIDENCE_THRESHOLD`. -/
def MIN_CONFIDENCE_THRESHOLD : ℚ := 0.3

/-- Setting `Config.MAX_CANDIDATE_NODES`. -/
def MAX_CANDIDATE_NODES : ℕ := 10

/-! ### Component scores (`CorrelationEngine`) -/

/-- Model of `CorrelationEngine.calculate_temporal_score` on timestamp inputs
(the `datetime.fromisoformat` branches only convert string inputs to the
same timestamps; the string-parsing failure path, which returns `0.0`, is
outside the numeric domain modelled here). Timestamps are rationals in
seconds, and `time_diff = abs((flow_timestamp - node_last_seen).total_seconds())`. -/
def calculate_temporal_score (flow_timestamp node_last_seen : ℚ) : ℚ :=
  let time_diff := |flow_timestamp - node_last_seen|
  if time_diff ≤ 300 then 1.0
  else if time_diff ≤ 3600 then 1.0 - (time_diff - 300) / 3300
  else max 0.1 (1.0 - time_diff / 86400)

/-- Model of `CorrelationEngine.calculate_bandwidth_score`. Byte count and bandwidth
are the integer database columns (`BIGINT`). -/
def calculate_bandwidth_score (flow_byte_count node_bandwidth_kb : ℤ) : ℚ :=
  let node_bandwidth_bytes : ℤ := node_bandwidth_kb * 1024
  if node_bandwidth_bytes = 0 then 0.5
  else
    let utilization : ℚ := (flow_byte_count : ℚ) / (node_bandwidth_bytes : ℚ)
    if 0.1 ≤ utilization ∧ utilization ≤ 0.8 then 1.0
    else if utilization < 0.1 then utilization / 0.1
    else max 0.2 (1.0 - (utilization - 0.8) / 0.2)

/-- Model of `CorrelationEngine.calculate_pattern_score`. Python truthiness: the
first branch fires when the fingerprint is the empty string or the history
list is empty; `matches` counts exact equalities. -/
def calculate_pattern_score (flow_fingerprint : String)
    (historical_fingerprints : List String) : ℚ :=
  if flow_fingerprint = "" ∨ historical_fingerprints = [] then 0.5
  else
    let matchCount := historical_fingerprints.countP (fun fp => fp == flow_fingerprint)
    if 0 < matchCount then min 1.0 (0.5 + (matchCount : ℚ) * 0.1)
    else 0.3

/-! ### Database model (`database.py`)

Tables are lists in insertion order. Only the columns the correlation
engine reads are carried: for `network_flows` these are `flow_id`,
`timestamp` (column 2), `dst_ip` (column 4), `byte_count` (column 9) and
`flow_fingerprint` (column 12); the remaining columns are never read by
the engine. -/

/-- A `tor_nodes` row, with the columns the engine reads. -/
structure TorNode where
  fingerprint : String
  nickname : String
  ip_address : String
  bandwidth_kb : ℤ
  country_code : String
  last_seen : ℚ
  is_guard : Bool
  is_exit : Bool
  is_running : Bool
deriving DecidableEq

/-- A `network_flows` row, with the columns the engine reads. -/
structure NetworkFlow where
  flow_id : ℤ
  timestamp : ℚ
  dst_ip : String
  byte_count : ℤ
  flow_fingerprint : String
deriving DecidableEq

/-- The JSON evidence payload built in `correlate_flow_to_guards`. -/
structure Evidence where
  node_nickname : String
  node_ip : String
  node_country : String
  exit_node_used : String
  time_window_seconds : ℕ
deriving DecidableEq

/-- A `correlation_results` row (`correlation_data` in the source). -/
structure CorrelationResult where
  flow_id : ℤ
  candidate_node_fingerprint : String
  confidence_score : ℚ
  temporal_score : ℚ
  bandwidth_score : ℚ
  pattern_score : ℚ
  evidence : Evidence
deriving DecidableEq

/-- The database state: the three tables the engine touches. -/
structure DBState where
  network_flows : List NetworkFlow
  tor_nodes : List TorNode
  correlation_results : List CorrelationResult
deriving DecidableEq

/-- Query `SELECT * FROM network_flows WHERE flow_id = %s` with `fetchone`:
the first row with the given id. -/
def find_flow (db : DBState) (fid : ℤ) : Option NetworkFlow :=
  db.network_flows.find? (fun f => f.flow_id == fid)

/-- Query `SELECT ... FROM tor_nodes WHERE ip_address = %s AND is_exit = TRUE`
with `fetchone`. -/
def find_exit_node (db : DBState) (ip : String) : Option TorNode :=
  db.tor_nodes.find? (fun n => n.ip_address == ip && n.is_exit)

/-- Model of `Database.get_guard_nodes`:
`SELECT * FROM tor_nodes WHERE is_guard = TRUE AND is_running = TRUE LIMIT n`. -/
def get_guard_nodes (db : DBState) (limit : ℕ) : List TorNode :=
  (db.tor_nodes.filter (fun n => n.is_guard && n.is_running)).take limit

/-! ### Single-flow correlation (`CorrelationEngine.correlate_flow_to_guards`) -/

/-- The unrounded weighted confidence
`temporal_score * 0.5 + bandwidth_score * 0.3 + pattern_score * 0.2`
computed for one candidate node (pattern history is `[]` at this call site). -/
def raw_confidence (flow : NetworkFlow) (node : TorNode) : ℚ :=
  calculate_temporal_score flow.timestamp node.last_seen * 0.5 +
  calculate_bandwidth_score flow.byte_count node.bandwidth_kb * 0.3 +
  calculate_pattern_score flow.flow_fingerprint [] * 0.2

/-- The `correlation_data` record built for one candidate node. -/
def correlation_data_for (fid : ℤ) (flow : NetworkFlow) (node : TorNode) :
    CorrelationResult :=
  let temporal_score := calculate_temporal_score flow.timestamp node.last_seen
  let bandwidth_score := calculate_bandwidth_score flow.byte_count node.bandwidth_kb
  let pattern_score := calculate_pattern_score flow.flow_fingerprint []
  let confidence_score := temporal_score * 0.5 + bandwidth_score * 0.3 +
    pattern_score * 0.2
  { flow_id := fid
    candidate_node_fingerprint := node.fingerprint
    confidence_score := round4 confidence_score
    temporal_score := round4 temporal_score
    bandwidth_score := round4 bandwidth_score
    pattern_score := round4 pattern_score
    evidence := ⟨node.nickname, node.ip_address, node.country_code,
                 flow.dst_ip, TIME_WINDOW_SECONDS⟩ }

/-- The candidate loop: the records inserted (in guard-list order) for the
candidates whose unrounded confidence reaches the threshold. -/
def flow_survivors (fid : ℤ) (flow : NetworkFlow) (nodes : List TorNode) :
    List CorrelationResult :=
  nodes.filterMap (fun node =>
    if MIN_CONFIDENCE_THRESHOLD ≤ raw_confidence flow node then
      some (correlation_data_for fid flow node)
    else none)

/-- The descending-by-confidence order used by
`correlations.sort(key=lambda x: x['confidence_score'], reverse=True)`. -/
def byConfidenceDesc (a b : CorrelationResult) : Prop :=
  b.confidence_score ≤ a.confidence_score

instance : DecidableRel byConfidenceDesc := fun a b =>
  inferInstanceAs (Decidable (b.confidence_score ≤ a.confidence_score))

instance : IsTotal CorrelationResult byConfidenceDesc :=
  ⟨fun a b => le_total b.confidence_score a.confidence_score⟩

instance : IsTrans CorrelationResult byConfidenceDesc :=
  ⟨fun _ _ _ hab hbc => le_trans hbc hab⟩

/-- Model of `CorrelationEngine.correlate_flow_to_guards`: returns the updated
database (the inserts performed) and the list returned to the caller.
Unknown flow or non-exit destination short-circuit to an empty result;
otherwise every above-threshold candidate is inserted, then the local list
is sorted descending by confidence (a stable sort, as Python's) and
truncated to `MAX_CANDIDATE_NODES`. -/
def correlate_flow_to_guards (db : DBState) (fid : ℤ) :
    DBState × List CorrelationResult :=
  match find_flow db fid with
  | none => (db, [])
  | some flow =>
    match find_exit_node db flow.dst_ip with
    | none => (db, [])
    | some _ =>
      let guard_nodes := get_guard_nodes db 100
      let correlations := flow_survivors fid flow guard_nodes
      ({ db with correlation_results := db.correlation_results ++ correlations },
       (correlations.insertionSort byConfidenceDesc).take MAX_CANDIDATE_NODES)

/-- The records `correlate_flow_to_guards` appends for a given flow id, as a
function of the two tables it reads. -/
def correlate_new (flows : List NetworkFlow) (nodes : List TorNode) (fid : ℤ) :
    List CorrelationResult :=
  match flows.find? (fun f => f.flow_id == fid) with
  | none => []
  | some flow =>
    match nodes.find? (fun n => n.ip_address == flow.dst_ip && n.is_exit) with
    | none => []
    | some _ =>
      flow_survivors fid flow ((nodes.filter (fun n => n.is_guard && n.is_running)).take 100)

/-! ### Batch correlation (`CorrelationEngine.correlate_all_flows`) -/

/-- The aggregate totals returned by the batch operation. -/
structure BatchStats where
  flows_processed : ℕ
  total_correlations : ℕ
deriving DecidableEq

/-- Query `SELECT flow_id FROM network_flows WHERE flow_id NOT IN
(SELECT DISTINCT flow_id FROM correlation_results)`. -/
def uncorrelated_flow_ids (db : DBState) : List ℤ :=
  (db.network_flows.filter (fun f =>
    !(db.correlation_results.any (fun c => c.flow_id == f.flow_id)))).map
    (fun f => f.flow_id)

/-- One iteration of the batch loop: correlate one flow, accumulate the
returned-correlation count. -/
def batch_step (acc : DBState × ℕ) (fid : ℤ) : DBState × ℕ :=
  let r := correlate_flow_to_guards acc.1 fid
  (r.1, acc.2 + r.2.length)

/-- Model of `CorrelationEngine.correlate_all_flows`: select the flows with no
correlation record, correlate each, and return the accumulated totals. -/
def correlate_all_flows (db : DBState) : DBState × BatchStats :=
  let flow_ids := uncorrelated_flow_ids db
  let final := flow_ids.foldl batch_step (db, 0)
  (final.1, ⟨flow_ids.length, final.2⟩)

/-! ### Persistence-failure model

`Database.get_connection` opens one connection per call and commits or
rolls back only that call's statements (`database.py`, lines 23-35), so
each `insert_correlation` in the candidate loop is its own committed
transaction.  When an insert raises, the exception propagates out of the
loop to the `try/except` wrapping `correlate_flow_to_guards`, which logs
the error and returns `[]`; the inserts already committed stay durable.
`correlate_flow_to_guards_fault db fid k` models a run in which the k-th
insert (0-based) for this flow raises; `k ≥` the number of above-threshold
candidates means no insert fails and the run completes normally. -/
def correlate_flow_to_guards_fault (db : DBState) (fid : ℤ) (failIdx : ℕ) :
    DBState × List CorrelationResult :=
  match find_flow db fid with
  | none => (db, [])
  | some flow =>
    match find_exit_node db flow.dst_ip with
    | none => (db, [])
    | some _ =>
      let guard_nodes := get_guard_nodes db 100
      let correlations := flow_survivors fid flow guard_nodes
      if failIdx < correlations.length then
        ({ db with correlation_results :=
             db.correlation_results ++ correlations.take failIdx }, [])
      else
        ({ db with correlation_results := db.correlation_results ++ correlations },
         (correlations.insertionSort byConfidenceDesc).take MAX_CANDIDATE_NODES)

/-! ### Concrete example databases used as test inputs -/

/-- A flow with id 1, timestamp 0, destination `2.2.2.2`, 512 bytes. -/
def flow1 : NetworkFlow := ⟨1, 0, "2.2.2.2", 512, "ab"⟩

/-- An exit node at the flow's destination address (not a guard). -/
def exit1 : TorNode := ⟨"E1", "exitnick", "2.2.2.2", 7, "us", 0, false, true, true⟩

/-- A running guard node with unknown (zero) bandwidth, named by its
fingerprint. -/
def gnode (s : String) : TorNode :=
  ⟨s, "guardnick", "10.0.0.1", 0, "de", 0, true, false, true⟩

/-- A running guard node with bandwidth 10 kB. -/
def guard1 : TorNode := ⟨"G1", "guardnick", "10.0.0.1", 10, "de", 0, true, false, true⟩

/-- One flow, its exit node, one guard candidate. -/
def db1 : DBState := ⟨[flow1], [exit1, guard1], []⟩

/-- One flow, its exit node, eleven guard candidates that all score above
the confidence threshold. -/
def db11 : DBState :=
  ⟨[flow1], [exit1, gnode "Ga", gnode "Gb", gnode "Gc", gnode "Gd", gnode "Ge",
   gnode "Gf", gnode "Gg", gnode "Gh", gnode "Gi", gnode "Gj", gnode "Gk"], []⟩

/-- One flow whose destination is not a known exit node. -/
def dbNoExit : DBState := ⟨[flow1], [guard1], []⟩

/-! ## Theorems -/

/-! ### Helper lemmas -/

/-- The temporal score only depends on the absolute time difference. -/
theorem temporal_score_abs_diff (a b : ℚ) :
    calculate_temporal_score a b = calculate_temporal_score |a - b| 0 := by
  unfold calculate_temporal_score
  rw [sub_zero, abs_abs]

/-- Evaluation of the temporal score on a nonnegative time difference. -/
theorem temporal_score_eval (d : ℚ) (hd : 0 ≤ d) :
    calculate_temporal_score d 0 =
      if d ≤ 300 then 1.0
      else if d ≤ 3600 then 1.0 - (d - 300) / 3300
      else max 0.1 (1.0 - d / 86400) := by
  unfold calculate_temporal_score
  rw [sub_zero, abs_of_nonneg hd]

/-- The temporal score always lies in `[0, 1]`. -/
theorem temporal_score_bounds (a b : ℚ) :
    0 ≤ calculate_temporal_score a b ∧ calculate_temporal_score a b ≤ 1 := by
  rw [temporal_score_abs_diff]
  set d := |a - b| with hd
  have hd0 : 0 ≤ d := abs_nonneg _
  rw [temporal_score_eval d hd0]
  split_ifs with h1 h2
  · norm_num
  · constructor <;> [linarith; linarith]
  · push_neg at h1 h2
    constructor
    · have : (0.1 : ℚ) ≤ max 0.1 (1.0 - d / 86400) := le_max_left _ _
      linarith
    · apply max_le <;> [norm_num; linarith]

/-- The bandwidth score never exceeds `1`. -/
theorem bandwidth_score_le_one (bc bw : ℤ) :
    calculate_bandwidth_score bc bw ≤ 1 := by
  unfold calculate_bandwidth_score
  simp only []
  set u : ℚ := (bc : ℚ) / ((bw * 1024 : ℤ) : ℚ) with hu
  split_ifs with h1 h2 h3
  · norm_num
  · norm_num
  · have : u / 0.1 < 1 := by
      rw [div_lt_one (by norm_num : (0:ℚ) < 0.1)]
      linarith
    linarith
  · push_neg at h3
    have hgt : (0.8 : ℚ) < u := by
      rcases not_and_or.mp h2 with h | h
      · exact absurd h3 (by push_neg; push_neg at h; linarith)
      · push_neg at h; exact h
    apply max_le
    · norm_num
    · have : (0:ℚ) ≤ (u - 0.8) / 0.2 :=
        div_nonneg (by linarith) (by norm_num)
      linarith

/-- The temporal score at `Δt = 1800` is `6/11 = 0.5454...`. -/
theorem temporal_at_1800 : calculate_temporal_score 1800 0 = 6 / 11 := by
  rw [temporal_score_eval 1800 (by norm_num)]
  norm_num

/-- The temporal score at the `3600` boundary is `0`, not the claimed floor. -/
theorem temporal_at_3600 : calculate_temporal_score 3600 0 = 0 := by
  rw [temporal_score_eval 3600 (by norm_num)]
  norm_num

/-- The value `6/11` rounded to 4 decimal places, half to even, is `0.5455`. -/
theorem round4_six_elevenths : round4 ((6 : ℚ) / 11) = 0.5455 := by
  have hfloor : ⌊(60000 : ℚ) / 11⌋ = 5454 := by
    rw [Int.floor_eq_iff]
    constructor <;> norm_num
  unfold round4 roundHalfEven
  rw [show (6 : ℚ) / 11 * 10000 = 60000 / 11 by norm_num]
  rw [hfloor]
  norm_num

/-! ### C3 — temporal score -/

/-- C3 counterexample: the claim fails on the code.  At `Δt = 3300` the
score is `1/11 < 0.1` (the claimed floor of `0.1` is violated inside the
linear-decay branch), at `Δt = 1800` the score rounds to `0.5455`, not
`0.5454`, and at the `3600` boundary the score jumps from `0` to
`82799/86400`, so it is not continuous there. -/
theorem temporal_score_claim_counterexample :
    calculate_temporal_score 3300 0 = 1 / 11 ∧
    ¬(0.1 ≤ calculate_temporal_score 3300 0) ∧
    round4 (calculate_temporal_score 1800 0) = 0.5455 ∧
    round4 (calculate_temporal_score 1800 0) ≠ 0.5454 ∧
    calculate_temporal_score 3600 0 = 0 ∧
    calculate_temporal_score 3601 0 = 82799 / 86400 := by
  have e1 : calculate_temporal_score 3300 0 = 1 / 11 := by
    rw [temporal_score_eval 3300 (by norm_num)]
    norm_num
  have e4 : calculate_temporal_score 3601 0 = 82799 / 86400 := by
    rw [temporal_score_eval 3601 (by norm_num)]
    rw [if_neg (by norm_num), if_neg (by norm_num), max_eq_right (by norm_num)]
    norm_num
  exact ⟨e1, by rw [e1]; norm_num, by rw [temporal_at_1800, round4_six_elevenths],
    by rw [temporal_at_1800, round4_six_elevenths]; norm_num, temporal_at_3600, e4⟩

/-- C3 as amended: the temporal score is `1.0` at `Δt = 0` and `Δt = 300`,
rounds to `0.5455` at `Δt = 1800`, always lies in `[0, 1]`, is at least
`0.1` for `Δt ≤ 3270` and for `Δt > 3600`, is continuous at the `300`
boundary, but jumps by at least `0.1` at the `3600` boundary (where its
value is `0`). -/
theorem temporal_score_amended :
    calculate_temporal_score 0 0 = 1.0 ∧
    calculate_temporal_score 300 0 = 1.0 ∧
    round4 (calculate_temporal_score 1800 0) = 0.5455 ∧
    (∀ a b : ℚ, 0 ≤ calculate_temporal_score a b ∧ calculate_temporal_score a b ≤ 1) ∧
    (∀ a b : ℚ, |a - b| ≤ 3270 → 0.1 ≤ calculate_temporal_score a b) ∧
    (∀ a b : ℚ, 3600 < |a - b| → 0.1 ≤ calculate_temporal_score a b) ∧
    (∀ ε : ℚ, 0 < ε → ∃ δ : ℚ, 0 < δ ∧ ∀ d : ℚ, |d - 300| < δ →
      |calculate_temporal_score d 0 - calculate_temporal_score 300 0| < ε) ∧
    (∀ d : ℚ, 3600 < d →
      0.1 ≤ calculate_temporal_score d 0 - calculate_temporal_score 3600 0) := by
  have h300 : calculate_temporal_score 300 0 = 1.0 := by
    rw [temporal_score_eval 300 (by norm_num)]; norm_num
  have h3600 : calculate_temporal_score 3600 0 = 0 := temporal_at_3600
  refine ⟨?_, h300, by rw [temporal_at_1800, round4_six_elevenths], ?_, ?_, ?_, ?_, ?_⟩
  · rw [temporal_score_eval 0 le_rfl]; norm_num
  · exact fun a b => temporal_score_bounds a b
  · intro a b hab
    rw [temporal_score_abs_diff]
    have h0 : 0 ≤ |a - b| := abs_nonneg _
    rw [temporal_score_eval _ h0]
    split_ifs with h1 h2
    · norm_num
    · push_neg at h1; rw [le_sub_iff_add_le]
      have : (|a - b| - 300) / 3300 ≤ 0.9 := by
        rw [div_le_iff₀ (by norm_num : (0:ℚ) < 3300)]; linarith
      linarith
    · push_neg at h1 h2; linarith
  · intro a b hab
    rw [temporal_score_abs_diff]
    rw [temporal_score_eval _ (abs_nonneg _)]
    rw [if_neg (by linarith), if_neg (by linarith)]
    exact le_max_left _ _
  · intro ε hε
    refine ⟨min 300 (3300 * ε), lt_min (by norm_num) (by positivity), ?_⟩
    intro d hd
    have hd1 : d < 300 + min 300 (3300 * ε) := by
      have := abs_lt.mp hd; linarith [this.2]
    have hd2 : 300 - min 300 (3300 * ε) < d := by
      have := abs_lt.mp hd; linarith [this.1]
    have hdpos : 0 < d := by
      have : min 300 (3300 * ε) ≤ 300 := min_le_left _ _
      linarith
    have hdlt : d < 600 := by
      have : min 300 (3300 * ε) ≤ 300 := min_le_left _ _
      linarith
    rw [h300, temporal_score_abs_diff, sub_zero, abs_of_pos hdpos,
      temporal_score_eval d hdpos.le]
    split_ifs with h1 h2
    · simpa using hε
    · push_neg at h1
      have hδε : min 300 (3300 * ε) ≤ 3300 * ε := min_le_right _ _
      rw [show (1.0 : ℚ) - (d - 300) / 3300 - 1.0 = -((d - 300) / 3300) by ring,
        abs_neg, abs_of_pos (div_pos (by linarith) (by norm_num))]
      rw [div_lt_iff₀ (by norm_num : (0:ℚ) < 3300)]
      have : d - 300 < min 300 (3300 * ε) := by linarith
      calc d - 300 < 3300 * ε := by linarith
        _ = ε * 3300 := by ring
    · linarith
  · intro d hd
    rw [h3600, sub_zero, temporal_score_abs_diff, sub_zero,
      abs_of_pos (by linarith : (0:ℚ) < d), temporal_score_eval d (by linarith)]
    rw [if_neg (by linarith), if_neg (by linarith)]
    exact le_max_left _ _

/-- Witness for the amended C3: concrete instantiations of its
hypothesis-bearing conjuncts. -/
theorem temporal_score_amended_witness :
    0.1 ≤ calculate_temporal_score 90000 0 ∧
    0.1 ≤ calculate_temporal_score 3000 0 ∧
    0.1 ≤ calculate_temporal_score 9999 0 - calculate_temporal_score 3600 0 := by
  refine ⟨?_, ?_, ?_⟩
  · exact temporal_score_amended.2.2.2.2.2.1 90000 0 (by rw [sub_zero]; norm_num [abs_of_nonneg])
  · exact temporal_score_amended.2.2.2.2.1 3000 0 (by rw [sub_zero]; norm_num [abs_of_nonneg])
  · exact temporal_score_amended.2.2.2.2.2.2.2 9999 (by norm_num)

/-! ### C5 — bandwidth score -/

/-- C5: the bandwidth score is `0.5` whenever `node.bandwidth_kb = 0`;
otherwise, with utilization `u = byte_count / (bandwidth_kb * 1024)`, it
is `1.0` on `0.1 ≤ u ≤ 0.8`, `u / 0.1` for `u < 0.1`, and
`max 0.2 (1.0 - (u - 0.8) / 0.2)` for `u > 0.8`; in particular `u = 0.05`
gives `0.5`, `u = 0.5` gives `1.0` and `u = 0.9` gives `0.5`. -/
theorem bandwidth_score_spec :
    (∀ bc : ℤ, calculate_bandwidth_score bc 0 = 0.5) ∧
    (∀ bc bw : ℤ, bw ≠ 0 →
      (0.1 ≤ (bc : ℚ) / ((bw : ℚ) * 1024) ∧ (bc : ℚ) / ((bw : ℚ) * 1024) ≤ 0.8 →
        calculate_bandwidth_score bc bw = 1.0) ∧
      ((bc : ℚ) / ((bw : ℚ) * 1024) < 0.1 →
        calculate_bandwidth_score bc bw = ((bc : ℚ) / ((bw : ℚ) * 1024)) / 0.1) ∧
      (0.8 < (bc : ℚ) / ((bw : ℚ) * 1024) →
        calculate_bandwidth_score bc bw =
          max 0.2 (1.0 - ((bc : ℚ) / ((bw : ℚ) * 1024) - 0.8) / 0.2))) ∧
    calculate_bandwidth_score 512 10 = 0.5 ∧
    calculate_bandwidth_score 5120 10 = 1.0 ∧
    calculate_bandwidth_score 9216 10 = 0.5 := by
  have hcast : ∀ bw : ℤ, ((bw * 1024 : ℤ) : ℚ) = (bw : ℚ) * 1024 := by
    intro bw; push_cast; ring
  refine ⟨?_, ?_, ?_, ?_, ?_⟩
  · intro bc; unfold calculate_bandwidth_score; norm_num
  · intro bc bw hbw
    have hbytes : bw * 1024 ≠ 0 := by
      intro h; exact hbw (by omega)
    unfold calculate_bandwidth_score
    simp only []
    rw [if_neg hbytes, hcast bw]
    refine ⟨?_, ?_, ?_⟩
    · intro h; rw [if_pos h]
    · intro h
      rw [if_neg (by rintro ⟨h1, -⟩; linarith), if_pos h]
    · intro h
      rw [if_neg (by rintro ⟨-, h2⟩; linarith), if_neg (by linarith)]
  · unfold calculate_bandwidth_score; norm_num
  · unfold calculate_bandwidth_score; norm_num
  · unfold calculate_bandwidth_score; norm_num

/-- Witness for C5: the `u > 0.8` branch applied at byte count `9216`,
bandwidth `10` (utilization `0.9`). -/
theorem bandwidth_score_spec_witness :
    calculate_bandwidth_score 9216 10 =
      max 0.2 (1.0 - (((9216 : ℤ) : ℚ) / (((10 : ℤ) : ℚ) * 1024) - 0.8) / 0.2) :=
  (bandwidth_score_spec.2.1 9216 10 (by decide)).2.2 (by norm_num)

/-! ### C6 — pattern score -/

/-- C6: the pattern score is `0.5` for an empty fingerprint or empty
history, `min 1.0 (0.5 + matches * 0.1)` when an exact match is present
(`0.6` for exactly one match), and `0.3` for non-empty inputs without a
match. -/
theorem pattern_score_spec :
    (∀ hist : List String, calculate_pattern_score "" hist = 0.5) ∧
    (∀ fp : String, calculate_pattern_score fp [] = 0.5) ∧
    (∀ (fp : String) (hist : List String), fp ≠ "" → fp ∈ hist →
      calculate_pattern_score fp hist =
        min 1.0 (0.5 + (hist.countP (fun s => s == fp) : ℚ) * 0.1)) ∧
    (∀ (fp : String) (hist : List String), fp ≠ "" → hist ≠ [] → fp ∉ hist →
      calculate_pattern_score fp hist = 0.3) ∧
    (∀ fp : String, fp ≠ "" → calculate_pattern_score fp [fp] = 0.6) := by
  refine ⟨?_, ?_, ?_, ?_, ?_⟩
  · intro hist; unfold calculate_pattern_score; simp
  · intro fp; unfold calculate_pattern_score; simp
  · intro fp hist hfp hmem
    unfold calculate_pattern_score
    rw [if_neg (by simp [hfp, List.ne_nil_of_mem hmem])]
    simp only []
    rw [if_pos (List.countP_pos_iff.mpr ⟨fp, hmem, by simp⟩)]
  · intro fp hist hfp hne hmem
    unfold calculate_pattern_score
    rw [if_neg (by simp [hfp, hne])]
    simp only []
    rw [if_neg ?_]
    simp only [not_lt, Nat.le_zero]
    rw [List.countP_eq_zero]
    intro s hs
    simp only [beq_iff_eq]
    intro h; exact hmem (h ▸ hs)
  · intro fp hfp
    unfold calculate_pattern_score
    rw [if_neg (by simp [hfp])]
    simp only [List.countP_cons, List.countP_nil, beq_self_eq_true, if_pos]
    norm_num

/-- Witness for C6: one exact match yields `0.6`. -/
theorem pattern_score_spec_witness : calculate_pattern_score "x" ["x"] = 0.6 :=
  pattern_score_spec.2.2.2.2 "x" (by decide)

/-! ### Structural lemmas about the correlation pipeline -/

/-- An empty pattern history always scores `0.5` (the production call site
passes `[]`). -/
theorem pattern_score_empty_history (fp : String) :
    calculate_pattern_score fp [] = 0.5 := by
  unfold calculate_pattern_score
  simp

/-- Rounding fixes `0.5`. -/
theorem round4_half : round4 0.5 = 0.5 := by
  unfold round4 roundHalfEven
  norm_num

/-- Rounding fixes `0.9`. -/
theorem round4_nine_tenths : round4 0.9 = 0.9 := by
  unfold round4 roundHalfEven
  norm_num

/-- Round-half-to-even never overshoots an integer upper bound. -/
theorem roundHalfEven_le_intCast {q : ℚ} {n : ℤ} (h : q ≤ (n : ℚ)) :
    roundHalfEven q ≤ n := by
  unfold roundHalfEven
  have hf : ⌊q⌋ ≤ n := by
    rw [show n = ⌊(n : ℚ)⌋ by rw [Int.floor_intCast]]
    exact Int.floor_le_floor h
  simp only []
  split_ifs with h1 h2 h3
  · exact hf
  · rcases lt_or_eq_of_le hf with h' | h'
    · omega
    · exfalso
      have : q - (⌊q⌋ : ℚ) ≤ 0 := by rw [h']; linarith
      linarith
  · exact hf
  · rcases lt_or_eq_of_le hf with h' | h'
    · omega
    · exfalso
      have h2' : (1 : ℚ)/2 ≤ q - (⌊q⌋ : ℚ) := le_of_not_lt h1
      have : q - (⌊q⌋ : ℚ) ≤ 0 := by rw [h']; linarith
      linarith

/-- Rounding to 4 decimal places never overshoots `0.9`. -/
theorem round4_le_nine_tenths {q : ℚ} (h : q ≤ 0.9) : round4 q ≤ 0.9 := by
  unfold round4
  have h1 : q * 10000 ≤ ((9000 : ℤ) : ℚ) := by push_cast; linarith
  have h2 : roundHalfEven (q * 10000) ≤ 9000 := roundHalfEven_le_intCast h1
  have h3 : (roundHalfEven (q * 10000) : ℚ) ≤ 9000 := by exact_mod_cast h2
  norm_num
  linarith

/-- Projections of the per-candidate record. -/
theorem correlation_data_for_fields (fid : ℤ) (flow : NetworkFlow) (node : TorNode) :
    (correlation_data_for fid flow node).flow_id = fid ∧
    (correlation_data_for fid flow node).candidate_node_fingerprint = node.fingerprint ∧
    (correlation_data_for fid flow node).temporal_score =
      round4 (calculate_temporal_score flow.timestamp node.last_seen) ∧
    (correlation_data_for fid flow node).bandwidth_score =
      round4 (calculate_bandwidth_score flow.byte_count node.bandwidth_kb) ∧
    (correlation_data_for fid flow node).pattern_score =
      round4 (calculate_pattern_score flow.flow_fingerprint []) ∧
    (correlation_data_for fid flow node).confidence_score =
      round4 (calculate_temporal_score flow.timestamp node.last_seen * 0.5 +
        calculate_bandwidth_score flow.byte_count node.bandwidth_kb * 0.3 +
        calculate_pattern_score flow.flow_fingerprint [] * 0.2) :=
  ⟨rfl, rfl, rfl, rfl, rfl, rfl⟩

/-- Membership in the survivor list characterizes the threshold filter. -/
theorem mem_flow_survivors {fid : ℤ} {flow : NetworkFlow} {nodes : List TorNode}
    {r : CorrelationResult} :
    r ∈ flow_survivors fid flow nodes ↔
      ∃ node ∈ nodes, MIN_CONFIDENCE_THRESHOLD ≤ raw_confidence flow node ∧
        r = correlation_data_for fid flow node := by
  unfold flow_survivors
  rw [List.mem_filterMap]
  constructor
  · rintro ⟨node, hn, hr⟩
    by_cases hc : MIN_CONFIDENCE_THRESHOLD ≤ raw_confidence flow node
    · rw [if_pos hc] at hr
      exact ⟨node, hn, hc, (Option.some.inj hr).symm⟩
    · rw [if_neg hc] at hr
      cases hr
  · rintro ⟨node, hn, hc, rfl⟩
    exact ⟨node, hn, by rw [if_pos hc]⟩

/-- Reduction of `correlate_flow_to_guards` when flow and exit node are
found. -/
theorem correlate_eq_of_found {db : DBState} {fid : ℤ} {flow : NetworkFlow}
    {e : TorNode} (h1 : find_flow db fid = some flow)
    (h2 : find_exit_node db flow.dst_ip = some e) :
    correlate_flow_to_guards db fid =
      ({ db with correlation_results := db.correlation_results ++
          flow_survivors fid flow (get_guard_nodes db 100) },
       ((flow_survivors fid flow (get_guard_nodes db 100)).insertionSort
          byConfidenceDesc).take MAX_CANDIDATE_NODES) := by
  unfold correlate_flow_to_guards
  simp only [h1, h2]

/-- Every result returned by `correlate_flow_to_guards` is a survivor of
the threshold filter for the looked-up flow. -/
theorem returned_mem {db : DBState} {fid : ℤ} {r : CorrelationResult}
    (h : r ∈ (correlate_flow_to_guards db fid).2) :
    ∃ flow, find_flow db fid = some flow ∧
      r ∈ flow_survivors fid flow (get_guard_nodes db 100) := by
  unfold correlate_flow_to_guards at h
  split at h
  · simp at h
  · rename_i flow hfound
    split at h
    · simp at h
    · refine ⟨flow, hfound, ?_⟩
      have h' := List.mem_of_mem_take h
      exact ((List.perm_insertionSort byConfidenceDesc _).mem_iff).mp h'

/-- Every result in the state after `correlate_flow_to_guards` is either
pre-existing or a survivor of the threshold filter. -/
theorem persisted_mem {db : DBState} {fid : ℤ} {r : CorrelationResult}
    (h : r ∈ (correlate_flow_to_guards db fid).1.correlation_results) :
    r ∈ db.correlation_results ∨
      ∃ flow, find_flow db fid = some flow ∧
        r ∈ flow_survivors fid flow (get_guard_nodes db 100) := by
  unfold correlate_flow_to_guards at h
  split at h
  · exact Or.inl h
  · rename_i flow hfound
    split at h
    · exact Or.inl h
    · simp only [] at h
      rcases List.mem_append.mp h with h' | h'
      · exact Or.inl h'
      · exact Or.inr ⟨flow, hfound, h'⟩

/-! ### C7 — exit gate -/

/-- C7: a flow whose destination is not a known exit node yields zero
correlation results and leaves the database untouched, regardless of
candidate scores. -/
theorem exit_gate_spec :
    ∀ (db : DBState) (fid : ℤ) (flow : NetworkFlow),
      find_flow db fid = some flow →
      find_exit_node db flow.dst_ip = none →
      correlate_flow_to_guards db fid = (db, []) := by
  intro db fid flow h1 h2
  unfold correlate_flow_to_guards
  simp only [h1, h2]

/-- Witness for C7: the concrete database whose only node directory entry
is a guard, not an exit. -/
theorem exit_gate_spec_witness : correlate_flow_to_guards dbNoExit 1 = (dbNoExit, []) :=
  exit_gate_spec dbNoExit 1 flow1 rfl rfl

/-! ### Concrete evaluations -/

/-- The empty candidate list survives to nothing. -/
theorem flow_survivors_nil (fid : ℤ) (flow : NetworkFlow) :
    flow_survivors fid flow [] = [] := rfl

/-- An above-threshold candidate contributes its record. -/
theorem flow_survivors_cons_pos {flow : NetworkFlow} {node : TorNode} (fid : ℤ)
    (nodes : List TorNode)
    (h : MIN_CONFIDENCE_THRESHOLD ≤ raw_confidence flow node) :
    flow_survivors fid flow (node :: nodes) =
      correlation_data_for fid flow node :: flow_survivors fid flow nodes := by
  unfold flow_survivors
  rw [List.filterMap_cons, if_pos h]

/-- The single guard of `db1` scores `0.75`, above the threshold. -/
theorem conf_flow1_guard1 : MIN_CONFIDENCE_THRESHOLD ≤ raw_confidence flow1 guard1 := by
  unfold MIN_CONFIDENCE_THRESHOLD raw_confidence calculate_temporal_score
    calculate_bandwidth_score calculate_pattern_score flow1 guard1
  norm_num

/-- Every zero-bandwidth guard of the examples scores `0.75` against
`flow1`, above the threshold. -/
theorem conf_flow1_gnode (s : String) :
    MIN_CONFIDENCE_THRESHOLD ≤ raw_confidence flow1 (gnode s) := by
  unfold MIN_CONFIDENCE_THRESHOLD raw_confidence calculate_temporal_score
    calculate_bandwidth_score calculate_pattern_score flow1 gnode
  norm_num

/-- Full evaluation of the single-candidate example. -/
theorem correlate_db1_eval :
    correlate_flow_to_guards db1 1 =
      ({ db1 with correlation_results := [correlation_data_for 1 flow1 guard1] },
       [correlation_data_for 1 flow1 guard1]) := by
  have h0 := @correlate_eq_of_found db1 1 flow1 exit1 rfl rfl
  rw [h0, show get_guard_nodes db1 100 = [guard1] from rfl,
    flow_survivors_cons_pos 1 [] conf_flow1_guard1, flow_survivors_nil]
  rfl

/-- The guard list of the eleven-candidate example. -/
theorem db11_guards :
    get_guard_nodes db11 100 =
      [gnode "Ga", gnode "Gb", gnode "Gc", gnode "Gd", gnode "Ge", gnode "Gf",
       gnode "Gg", gnode "Gh", gnode "Gi", gnode "Gj", gnode "Gk"] := rfl

/-- All eleven candidates of `db11` survive the threshold filter. -/
theorem db11_survivors :
    flow_survivors 1 flow1 (get_guard_nodes db11 100) =
      ["Ga", "Gb", "Gc", "Gd", "Ge", "Gf", "Gg", "Gh", "Gi", "Gj", "Gk"].map
        (fun s => correlation_data_for 1 flow1 (gnode s)) := by
  rw [db11_guards,
    flow_survivors_cons_pos 1 _ (conf_flow1_gnode "Ga"),
    flow_survivors_cons_pos 1 _ (conf_flow1_gnode "Gb"),
    flow_survivors_cons_pos 1 _ (conf_flow1_gnode "Gc"),
    flow_survivors_cons_pos 1 _ (conf_flow1_gnode "Gd"),
    flow_survivors_cons_pos 1 _ (conf_flow1_gnode "Ge"),
    flow_survivors_cons_pos 1 _ (conf_flow1_gnode "Gf"),
    flow_survivors_cons_pos 1 _ (conf_flow1_gnode "Gg"),
    flow_survivors_cons_pos 1 _ (conf_flow1_gnode "Gh"),
    flow_survivors_cons_pos 1 _ (conf_flow1_gnode "Gi"),
    flow_survivors_cons_pos 1 _ (conf_flow1_gnode "Gj"),
    flow_survivors_cons_pos 1 _ (conf_flow1_gnode "Gk"),
    flow_survivors_nil]
  rfl

/-- Eleven candidates survive in the `db11` example. -/
theorem db11_survivors_len :
    (flow_survivors 1 flow1 (get_guard_nodes db11 100)).length = 11 := by
  rw [db11_survivors]
  rfl

/-- The record built from a guard node is determined injectively by the
guard's fingerprint string. -/
theorem gnode_data_injective :
    Function.Injective (fun s => correlation_data_for 1 flow1 (gnode s)) := by
  intro a b hab
  exact congrArg CorrelationResult.candidate_node_fingerprint hab

/-! ### C4 — filter, rank, persist -/

/-- C4 counterexample: on `db11` (eleven qualifying candidates) the code
persists all eleven records but returns only the top ten, so the persisted
set is strictly larger than the returned set. -/
theorem persisted_equals_returned_counterexample :
    ¬ (∀ r ∈ (correlate_flow_to_guards db11 1).1.correlation_results,
        r ∈ (correlate_flow_to_guards db11 1).2) := by
  have h0 := @correlate_eq_of_found db11 1 flow1 exit1 rfl rfl
  intro hsub
  have hplen : (correlate_flow_to_guards db11 1).1.correlation_results.length = 11 := by
    rw [h0]
    show (db11.correlation_results ++
      flow_survivors 1 flow1 (get_guard_nodes db11 100)).length = 11
    rw [db11_survivors]
    rfl
  have hnodup : (correlate_flow_to_guards db11 1).1.correlation_results.Nodup := by
    rw [h0]
    show (db11.correlation_results ++
      flow_survivors 1 flow1 (get_guard_nodes db11 100)).Nodup
    rw [db11_survivors, show db11.correlation_results = [] from rfl, List.nil_append]
    exact List.Nodup.map gnode_data_injective (by decide)
  have hrlen : (correlate_flow_to_guards db11 1).2.length = 10 := by
    rw [h0]
    show (((flow_survivors 1 flow1 (get_guard_nodes db11 100)).insertionSort
      byConfidenceDesc).take MAX_CANDIDATE_NODES).length = 10
    rw [List.length_take,
      (List.perm_insertionSort byConfidenceDesc _).length_eq, db11_survivors_len]
    rfl
  have hle := ((hnodup.subperm (fun r hr => hsub r hr)).length_le)
  rw [hplen, hrlen] at hle
  omega

/-- C4 as amended: after the exit gate, exactly the candidates with
unrounded confidence at or above the threshold are persisted (appended to
the existing results), the returned list is sorted descending by
confidence, capped at `MAX_CANDIDATE_NODES`, and is a subset of the
persisted results; when at most `MAX_CANDIDATE_NODES` candidates survive,
the returned list is a permutation of the newly persisted records, but
with more survivors the extra persisted records are not returned. -/
theorem filter_rank_persist_amended :
    ∀ (db : DBState) (fid : ℤ) (flow : NetworkFlow) (e : TorNode),
      find_flow db fid = some flow →
      find_exit_node db flow.dst_ip = some e →
      (correlate_flow_to_guards db fid).1.correlation_results =
        db.correlation_results ++ flow_survivors fid flow (get_guard_nodes db 100) ∧
      (∀ r ∈ flow_survivors fid flow (get_guard_nodes db 100),
        ∃ node ∈ get_guard_nodes db 100,
          MIN_CONFIDENCE_THRESHOLD ≤ raw_confidence flow node ∧
          r = correlation_data_for fid flow node) ∧
      (∀ node ∈ get_guard_nodes db 100,
        MIN_CONFIDENCE_THRESHOLD ≤ raw_confidence flow node →
        correlation_data_for fid flow node ∈
          (correlate_flow_to_guards db fid).1.correlation_results) ∧
      List.Sorted byConfidenceDesc (correlate_flow_to_guards db fid).2 ∧
      (correlate_flow_to_guards db fid).2.length ≤ MAX_CANDIDATE_NODES ∧
      (∀ r ∈ (correlate_flow_to_guards db fid).2,
        r ∈ (correlate_flow_to_guards db fid).1.correlation_results) ∧
      ((flow_survivors fid flow (get_guard_nodes db 100)).length ≤ MAX_CANDIDATE_NODES →
        (correlate_flow_to_guards db fid).2.Perm
          (flow_survivors fid flow (get_guard_nodes db 100))) := by
  intro db fid flow e h1 h2
  have h0 := correlate_eq_of_found h1 h2
  rw [h0]
  refine ⟨rfl, ?_, ?_, ?_, ?_, ?_, ?_⟩
  · exact fun r hr => mem_flow_survivors.mp hr
  · intro node hn hc
    exact List.mem_append_right _ (mem_flow_survivors.mpr ⟨node, hn, hc, rfl⟩)
  · exact (List.sorted_insertionSort byConfidenceDesc _).sublist
      (List.take_sublist _ _)
  · rw [List.length_take]
    exact min_le_left _ _
  · intro r hr
    exact List.mem_append_right _
      (((List.perm_insertionSort byConfidenceDesc _).mem_iff).mp
        (List.mem_of_mem_take hr))
  · intro hlen
    rw [List.take_of_length_le
      (by rw [(List.perm_insertionSort byConfidenceDesc _).length_eq]; exact hlen)]
    exact List.perm_insertionSort byConfidenceDesc _

/-- Witness for the amended C4: the persisted-state equation on the
single-candidate example. -/
theorem filter_rank_persist_amended_witness :
    (correlate_flow_to_guards db1 1).1.correlation_results =
      db1.correlation_results ++ flow_survivors 1 flow1 (get_guard_nodes db1 100) :=
  (filter_rank_persist_amended db1 1 flow1 exit1 rfl rfl).1

/-! ### C2 — confidence weighting -/

/-- C2: every returned correlation carries component scores rounded to 4
decimal places and a confidence equal to
`round4 (0.5·temporal + 0.3·bandwidth + 0.2·pattern)` of its node's raw
component scores; the weighting at `(1.0, 1.0, 0.5)` yields `0.9`. -/
theorem confidence_weighting_spec :
    (∀ (db : DBState) (fid : ℤ) (r : CorrelationResult),
      r ∈ (correlate_flow_to_guards db fid).2 →
      ∃ flow node, find_flow db fid = some flow ∧ node ∈ get_guard_nodes db 100 ∧
        r.temporal_score = round4 (calculate_temporal_score flow.timestamp node.last_seen) ∧
        r.bandwidth_score = round4 (calculate_bandwidth_score flow.byte_count node.bandwidth_kb) ∧
        r.pattern_score = round4 (calculate_pattern_score flow.flow_fingerprint []) ∧
        r.confidence_score =
          round4 (0.5 * calculate_temporal_score flow.timestamp node.last_seen +
            0.3 * calculate_bandwidth_score flow.byte_count node.bandwidth_kb +
            0.2 * calculate_pattern_score flow.flow_fingerprint [])) ∧
    round4 (0.5 * 1.0 + 0.3 * 1.0 + 0.2 * 0.5) = 0.9 := by
  constructor
  · intro db fid r hr
    obtain ⟨flow, hflow, hmem⟩ := returned_mem hr
    obtain ⟨node, hn, hc, rfl⟩ := mem_flow_survivors.mp hmem
    obtain ⟨-, -, ht, hb, hp, hconf⟩ := correlation_data_for_fields fid flow node
    refine ⟨flow, node, hflow, hn, ht, hb, hp, ?_⟩
    rw [hconf]
    congr 1
    ring
  · rw [show (0.5 * 1.0 + 0.3 * 1.0 + 0.2 * 0.5 : ℚ) = 0.9 by norm_num,
      round4_nine_tenths]

/-- Witness for C2: the returned record of the single-candidate example. -/
theorem confidence_weighting_spec_witness :
    ∃ flow node, find_flow db1 1 = some flow ∧ node ∈ get_guard_nodes db1 100 ∧
      (correlation_data_for 1 flow1 guard1).temporal_score =
        round4 (calculate_temporal_score flow.timestamp node.last_seen) ∧
      (correlation_data_for 1 flow1 guard1).bandwidth_score =
        round4 (calculate_bandwidth_score flow.byte_count node.bandwidth_kb) ∧
      (correlation_data_for 1 flow1 guard1).pattern_score =
        round4 (calculate_pattern_score flow.flow_fingerprint []) ∧
      (correlation_data_for 1 flow1 guard1).confidence_score =
        round4 (0.5 * calculate_temporal_score flow.timestamp node.last_seen +
          0.3 * calculate_bandwidth_score flow.byte_count node.bandwidth_kb +
          0.2 * calculate_pattern_score flow.flow_fingerprint []) :=
  confidence_weighting_spec.1 db1 1 (correlation_data_for 1 flow1 guard1)
    (by rw [correlate_db1_eval]; exact List.mem_singleton_self _)

/-! ### C10 — pattern score is constant in production -/

/-- The per-candidate record always has pattern score `0.5` and confidence
`round4 (0.5·temporal + 0.3·bandwidth + 0.1) ≤ 0.9`. -/
theorem data_pattern_conf (fid : ℤ) (flow : NetworkFlow) (node : TorNode) :
    (correlation_data_for fid flow node).pattern_score = 0.5 ∧
    (correlation_data_for fid flow node).confidence_score =
      round4 (0.5 * calculate_temporal_score flow.timestamp node.last_seen +
        0.3 * calculate_bandwidth_score flow.byte_count node.bandwidth_kb + 0.1) ∧
    (correlation_data_for fid flow node).confidence_score ≤ 0.9 := by
  obtain ⟨-, -, -, -, hp, hconf⟩ := correlation_data_for_fields fid flow node
  have harg : calculate_temporal_score flow.timestamp node.last_seen * 0.5 +
      calculate_bandwidth_score flow.byte_count node.bandwidth_kb * 0.3 +
      calculate_pattern_score flow.flow_fingerprint [] * 0.2 =
      0.5 * calculate_temporal_score flow.timestamp node.last_seen +
        0.3 * calculate_bandwidth_score flow.byte_count node.bandwidth_kb + 0.1 := by
    rw [pattern_score_empty_history]
    ring
  refine ⟨by rw [hp, pattern_score_empty_history, round4_half],
    by rw [hconf, harg], ?_⟩
  rw [hconf, harg]
  apply round4_le_nine_tenths
  have ht := (temporal_score_bounds flow.timestamp node.last_seen).2
  have hb := bandwidth_score_le_one flow.byte_count node.bandwidth_kb
  linarith

/-- C10: in the production call path the pattern history is empty, so every
persisted or returned correlation has pattern score exactly `0.5`, and its
confidence equals `round4 (0.5·temporal + 0.3·bandwidth + 0.1)`, never
exceeding `0.9`. -/
theorem production_pattern_constant_spec :
    ∀ (db : DBState) (fid : ℤ) (r : CorrelationResult),
      (r ∈ (correlate_flow_to_guards db fid).1.correlation_results →
        r ∈ db.correlation_results ∨
          (r.pattern_score = 0.5 ∧ r.confidence_score ≤ 0.9 ∧
           ∃ flow node, find_flow db fid = some flow ∧
             node ∈ get_guard_nodes db 100 ∧
             r.confidence_score =
               round4 (0.5 * calculate_temporal_score flow.timestamp node.last_seen +
                 0.3 * calculate_bandwidth_score flow.byte_count node.bandwidth_kb +
                 0.1))) ∧
      (r ∈ (correlate_flow_to_guards db fid).2 →
        r.pattern_score = 0.5 ∧ r.confidence_score ≤ 0.9 ∧
        ∃ flow node, find_flow db fid = some flow ∧
          node ∈ get_guard_nodes db 100 ∧
          r.confidence_score =
            round4 (0.5 * calculate_temporal_score flow.timestamp node.last_seen +
              0.3 * calculate_bandwidth_score flow.byte_count node.bandwidth_kb +
              0.1)) := by
  intro db fid r
  constructor
  · intro hr
    rcases persisted_mem hr with h | ⟨flow, hflow, hmem⟩
    · exact Or.inl h
    · obtain ⟨node, hn, hc, rfl⟩ := mem_flow_survivors.mp hmem
      obtain ⟨hp, hconf, hle⟩ := data_pattern_conf fid flow node
      exact Or.inr ⟨hp, hle, flow, node, hflow, hn, hconf⟩
  · intro hr
    obtain ⟨flow, hflow, hmem⟩ := returned_mem hr
    obtain ⟨node, hn, hc, rfl⟩ := mem_flow_survivors.mp hmem
    obtain ⟨hp, hconf, hle⟩ := data_pattern_conf fid flow node
    exact ⟨hp, hle, flow, node, hflow, hn, hconf⟩

/-- Witness for C10: the returned record of the single-candidate example
has pattern score `0.5` and confidence at most `0.9`. -/
theorem production_pattern_constant_spec_witness :
    (correlation_data_for 1 flow1 guard1).pattern_score = 0.5 ∧
    (correlation_data_for 1 flow1 guard1).confidence_score ≤ 0.9 ∧
    ∃ flow node, find_flow db1 1 = some flow ∧
      node ∈ get_guard_nodes db1 100 ∧
      (correlation_data_for 1 flow1 guard1).confidence_score =
        round4 (0.5 * calculate_temporal_score flow.timestamp node.last_seen +
          0.3 * calculate_bandwidth_score flow.byte_count node.bandwidth_kb + 0.1) :=
  (production_pattern_constant_spec db1 1 (correlation_data_for 1 flow1 guard1)).2
    (by rw [correlate_db1_eval]; exact List.mem_singleton_self _)

/-! ### C9 — persistence failures -/

/-- Reduction of the fault-injected run when the failing insert index lies
within the survivor list. -/
theorem fault_eq_of_found {db : DBState} {fid : ℤ} {flow : NetworkFlow}
    {e : TorNode} {k : ℕ} (h1 : find_flow db fid = some flow)
    (h2 : find_exit_node db flow.dst_ip = some e)
    (hk : k < (flow_survivors fid flow (get_guard_nodes db 100)).length) :
    correlate_flow_to_guards_fault db fid k =
      ({ db with correlation_results := db.correlation_results ++
          (flow_survivors fid flow (get_guard_nodes db 100)).take k }, []) := by
  unfold correlate_flow_to_guards_fault
  simp only [h1, h2]
  rw [if_pos hk]

/-- C9 counterexample: on `db11`, a datastore failure at the third insert
leaves two of the eleven correlation records durable while the operation
returns the empty list — the failure is not surfaced and the partial set is
not rolled back. -/
theorem persistence_failure_counterexample :
    (correlate_flow_to_guards_fault db11 1 2).2 = [] ∧
    (correlate_flow_to_guards_fault db11 1 2).1.correlation_results.length = 2 ∧
    2 < (flow_survivors 1 flow1 (get_guard_nodes db11 100)).length := by
  have hk : (2 : ℕ) < (flow_survivors 1 flow1 (get_guard_nodes db11 100)).length := by
    rw [db11_survivors_len]
    omega
  have h0 := @fault_eq_of_found db11 1 flow1 exit1 2 rfl rfl hk
  refine ⟨by rw [h0], ?_, hk⟩
  rw [h0]
  show (db11.correlation_results ++
    (flow_survivors 1 flow1 (get_guard_nodes db11 100)).take 2).length = 2
  rw [db11_survivors]
  rfl

/-- C9 as amended: when the k-th insert for a flow fails, the per-flow
operation swallows the error and returns the empty list (indistinguishable
from a no-candidate success), while the k inserts already committed remain
durable — prior writes are not rolled back, so a partial correlation set
for the flow is left durable. -/
theorem persistence_failure_amended :
    ∀ (db : DBState) (fid : ℤ) (flow : NetworkFlow) (e : TorNode) (k : ℕ),
      find_flow db fid = some flow →
      find_exit_node db flow.dst_ip = some e →
      k < (flow_survivors fid flow (get_guard_nodes db 100)).length →
      (correlate_flow_to_guards_fault db fid k).2 = [] ∧
      (correlate_flow_to_guards_fault db fid k).1.correlation_results =
        db.correlation_results ++
          (flow_survivors fid flow (get_guard_nodes db 100)).take k ∧
      (correlate_flow_to_guards_fault db fid k).1.correlation_results.length =
        db.correlation_results.length + k := by
  intro db fid flow e k h1 h2 hk
  have h0 := fault_eq_of_found h1 h2 hk
  refine ⟨by rw [h0], by rw [h0], ?_⟩
  rw [h0]
  show (db.correlation_results ++
    (flow_survivors fid flow (get_guard_nodes db 100)).take k).length =
    db.correlation_results.length + k
  rw [List.length_append, List.length_take, Nat.min_eq_left hk.le]

/-- Witness for the amended C9: failure at the second insert of the
`db11` run. -/
theorem persistence_failure_amended_witness :
    (correlate_flow_to_guards_fault db11 1 1).2 = [] ∧
    (correlate_flow_to_guards_fault db11 1 1).1.correlation_results =
      db11.correlation_results ++
        (flow_survivors 1 flow1 (get_guard_nodes db11 100)).take 1 ∧
    (correlate_flow_to_guards_fault db11 1 1).1.correlation_results.length =
      db11.correlation_results.length + 1 :=
  persistence_failure_amended db11 1 flow1 exit1 1 rfl rfl
    (by rw [db11_survivors_len]; omega)

/-! ### C8 — batch idempotency -/

/-- Reading of `correlate_flow_to_guards` as a pure state transformer: the state
gains exactly `correlate_new` of the two tables it reads, and the returned
list is the sorted, truncated view of those new records. -/
theorem correlate_pair_eq (db : DBState) (fid : ℤ) :
    correlate_flow_to_guards db fid =
      ({ db with correlation_results := db.correlation_results ++
          correlate_new db.network_flows db.tor_nodes fid },
       ((correlate_new db.network_flows db.tor_nodes fid).insertionSort
          byConfidenceDesc).take MAX_CANDIDATE_NODES) := by
  unfold correlate_flow_to_guards correlate_new find_flow find_exit_node get_guard_nodes
  cases hf : db.network_flows.find? (fun f => f.flow_id == fid) with
  | none =>
    simp only [hf]
    simp
  | some flow =>
    cases he : db.tor_nodes.find? (fun n => n.ip_address == flow.dst_ip && n.is_exit) with
    | none =>
      simp only [hf, he]
      simp
    | some e =>
      simp only [hf, he]

/-- Newly inserted records carry the id of the flow they were computed
for. -/
theorem correlate_new_flow_id {flows : List NetworkFlow} {nodes : List TorNode}
    {fid : ℤ} {r : CorrelationResult} (h : r ∈ correlate_new flows nodes fid) :
    r.flow_id = fid := by
  unfold correlate_new at h
  split at h
  · cases h
  · split at h
    · cases h
    · obtain ⟨node, -, -, rfl⟩ := mem_flow_survivors.mp h
      rfl

/-- Selection query characterization: a flow id is selected exactly when
some flow row bears it and no correlation record references it. -/
theorem mem_uncorrelated_iff (db : DBState) (fid : ℤ) :
    fid ∈ uncorrelated_flow_ids db ↔
      ((∃ f ∈ db.network_flows, f.flow_id = fid) ∧
       ∀ c ∈ db.correlation_results, c.flow_id ≠ fid) := by
  unfold uncorrelated_flow_ids
  rw [List.mem_map]
  constructor
  · rintro ⟨f, hf, rfl⟩
    obtain ⟨hmem, hpred⟩ := List.mem_filter.mp hf
    refine ⟨⟨f, hmem, rfl⟩, ?_⟩
    intro c hc hcid
    rw [Bool.not_eq_true'] at hpred
    have : db.correlation_results.any (fun c => c.flow_id == f.flow_id) = true :=
      List.any_eq_true.mpr ⟨c, hc, by rw [hcid, beq_self_eq_true]⟩
    rw [this] at hpred
    cases hpred
  · rintro ⟨⟨f, hf, hfid⟩, hnone⟩
    refine ⟨f, List.mem_filter.mpr ⟨hf, ?_⟩, hfid⟩
    rw [Bool.not_eq_true']
    rw [List.any_eq_false]
    intro c hc
    simp only [beq_iff_eq]
    rw [hfid]
    exact hnone c hc

/-- The batch loop never touches the flow or node tables. -/
theorem foldl_batch_tables (l : List ℤ) (acc : DBState × ℕ) :
    (l.foldl batch_step acc).1.network_flows = acc.1.network_flows ∧
    (l.foldl batch_step acc).1.tor_nodes = acc.1.tor_nodes := by
  induction l generalizing acc with
  | nil => exact ⟨rfl, rfl⟩
  | cons a t ih =>
    rw [List.foldl_cons]
    have hstep : (batch_step acc a).1.network_flows = acc.1.network_flows ∧
        (batch_step acc a).1.tor_nodes = acc.1.tor_nodes := by
      unfold batch_step
      rw [correlate_pair_eq]
      exact ⟨rfl, rfl⟩
    obtain ⟨h1, h2⟩ := ih (batch_step acc a)
    exact ⟨h1.trans hstep.1, h2.trans hstep.2⟩

/-- The batch loop only appends correlation records. -/
theorem foldl_batch_corrs_mono (l : List ℤ) (acc : DBState × ℕ) :
    ∃ s, (l.foldl batch_step acc).1.correlation_results =
      acc.1.correlation_results ++ s := by
  induction l generalizing acc with
  | nil => exact ⟨[], (List.append_nil _).symm⟩
  | cons a t ih =>
    rw [List.foldl_cons]
    obtain ⟨s, hs⟩ := ih (batch_step acc a)
    refine ⟨correlate_new acc.1.network_flows acc.1.tor_nodes a ++ s, ?_⟩
    rw [hs]
    have : (batch_step acc a).1.correlation_results =
        acc.1.correlation_results ++
          correlate_new acc.1.network_flows acc.1.tor_nodes a := by
      unfold batch_step
      rw [correlate_pair_eq]
    rw [this, List.append_assoc]

/-- After the batch loop runs over a list containing `fid`, either some
durable record bears `fid`, or `fid` produces no records at all. -/
theorem foldl_batch_records (l : List ℤ) (acc : DBState × ℕ) (fid : ℤ)
    (hmem : fid ∈ l) :
    (∃ c ∈ (l.foldl batch_step acc).1.correlation_results, c.flow_id = fid) ∨
      correlate_new acc.1.network_flows acc.1.tor_nodes fid = [] := by
  induction l generalizing acc with
  | nil => cases hmem
  | cons a t ih =>
    rw [List.foldl_cons]
    rcases List.mem_cons.mp hmem with rfl | hmem'
    · by_cases hnil : correlate_new acc.1.network_flows acc.1.tor_nodes fid = []
      · exact Or.inr hnil
      · left
        obtain ⟨r, hr⟩ := List.exists_mem_of_ne_nil _ hnil
        have hr' : r ∈ (batch_step acc fid).1.correlation_results := by
          unfold batch_step
          rw [correlate_pair_eq]
          exact List.mem_append_right _ hr
        obtain ⟨s, hs⟩ := foldl_batch_corrs_mono t (batch_step acc fid)
        exact ⟨r, by rw [hs]; exact List.mem_append_left _ hr',
          correlate_new_flow_id hr⟩
    · have hpres : (batch_step acc a).1.network_flows = acc.1.network_flows ∧
          (batch_step acc a).1.tor_nodes = acc.1.tor_nodes := by
        unfold batch_step
        rw [correlate_pair_eq]
        exact ⟨rfl, rfl⟩
      rcases ih (batch_step acc a) hmem' with h | h
      · exact Or.inl h
      · right
        rw [hpres.1, hpres.2] at h
        exact h

/-- When every listed flow id produces no records, the batch loop is the
identity. -/
theorem foldl_batch_noop (l : List ℤ) (db : DBState) (n : ℕ)
    (h : ∀ fid ∈ l, correlate_new db.network_flows db.tor_nodes fid = []) :
    l.foldl batch_step (db, n) = (db, n) := by
  induction l generalizing n with
  | nil => rfl
  | cons a t ih =>
    rw [List.foldl_cons]
    have hstep : batch_step (db, n) a = (db, n) := by
      unfold batch_step
      rw [correlate_pair_eq, h a (List.mem_cons_self a t)]
      simp
    rw [hstep]
    exact ih n (fun fid hf => h fid (List.mem_cons_of_mem a hf))

/-- C8: the batch operation selects exactly the flows with no correlation
record; a flow bearing a record is never reprocessed, and running the
batch twice with no intervening changes leaves the state unchanged and
inserts zero new correlations on the second run. -/
theorem batch_idempotency_spec :
    (∀ (db : DBState) (fid : ℤ),
      fid ∈ uncorrelated_flow_ids db ↔
        ((∃ f ∈ db.network_flows, f.flow_id = fid) ∧
         ∀ c ∈ db.correlation_results, c.flow_id ≠ fid)) ∧
    (∀ db : DBState,
      (correlate_all_flows (correlate_all_flows db).1).1 =
        (correlate_all_flows db).1 ∧
      (correlate_all_flows (correlate_all_flows db).1).2.total_correlations = 0) := by
  refine ⟨mem_uncorrelated_iff, ?_⟩
  intro db
  have hDB1 : (correlate_all_flows db).1 =
      ((uncorrelated_flow_ids db).foldl batch_step (db, 0)).1 := rfl
  have hflows : (correlate_all_flows db).1.network_flows = db.network_flows := by
    rw [hDB1]
    exact (foldl_batch_tables _ _).1
  have hnodes : (correlate_all_flows db).1.tor_nodes = db.tor_nodes := by
    rw [hDB1]
    exact (foldl_batch_tables _ _).2
  have hmono : ∃ s, (correlate_all_flows db).1.correlation_results =
      db.correlation_results ++ s := by
    rw [hDB1]
    exact foldl_batch_corrs_mono _ _
  have hkey : ∀ fid ∈ uncorrelated_flow_ids (correlate_all_flows db).1,
      correlate_new (correlate_all_flows db).1.network_flows
        (correlate_all_flows db).1.tor_nodes fid = [] := by
    intro fid hfid
    obtain ⟨⟨f, hf, hffid⟩, hnone⟩ := (mem_uncorrelated_iff _ fid).mp hfid
    rw [hflows, hnodes]
    by_contra hne
    by_cases hsel : fid ∈ uncorrelated_flow_ids db
    · rcases foldl_batch_records (uncorrelated_flow_ids db) (db, 0) fid hsel with
        ⟨c, hc, hcid⟩ | hnil
      · exact hnone c (by rw [hDB1]; exact hc) hcid
      · exact hne hnil
    · rw [hflows] at hf
      have hcon : ¬ ((∃ f ∈ db.network_flows, f.flow_id = fid) ∧
          ∀ c ∈ db.correlation_results, c.flow_id ≠ fid) :=
        fun hcon => hsel ((mem_uncorrelated_iff db fid).mpr hcon)
      push_neg at hcon
      obtain ⟨c, hc, hcid⟩ := hcon ⟨f, hf, hffid⟩
      obtain ⟨s, hs⟩ := hmono
      exact hnone c (by rw [hs]; exact List.mem_append_left _ hc) hcid
  have hfold := foldl_batch_noop (uncorrelated_flow_ids (correlate_all_flows db).1)
    (correlate_all_flows db).1 0 hkey
  constructor
  · show ((uncorrelated_flow_ids (correlate_all_flows db).1).foldl batch_step
      ((correlate_all_flows db).1, 0)).1 = (correlate_all_flows db).1
    rw [hfold]
  · show ((uncorrelated_flow_ids (correlate_all_flows db).1).foldl batch_step
      ((correlate_all_flows db).1, 0)).2 = 0
    rw [hfold]

/-- Witness for C8: the second batch run over the eleven-candidate example
inserts nothing. -/
theorem batch_idempotency_spec_witness :
    (correlate_all_flows (correlate_all_flows db11).1).2.total_correlations = 0 :=
  (batch_idempotency_spec.2 db11).2

/-! ### C1 — flow fingerprint -/

/-- The loop-computed inter-arrival list coincides with the indexed form
used in the specification wording. -/
theorem interArrivalTimes_eq (packets : List Packet) :
    interArrivalTimes packets =
      (List.range (min 20 packets.length - 1)).map (fun i =>
        truncTowardZero (((packets.getD (i + 1) ⟨0, 0⟩).time -
          (packets.getD i ⟨0, 0⟩).time) * 1000)) := by
  unfold interArrivalTimes
  split_ifs with h
  · apply List.ext_getElem
    · rw [List.length_zipWith, List.length_tail, List.length_take,
        List.length_map, List.length_range]
      omega
    · intro i h1 h2
      rw [List.length_map, List.length_range] at h2
      have hi1 : i + 1 < (packets.take 20).length := by
        rw [List.length_take]
        omega
      have hi0 : i < (packets.take 20).length := by omega
      have hi1p : i + 1 < packets.length := by
        rw [List.length_take] at hi1
        omega
      have hi0p : i < packets.length := by omega
      rw [List.getElem_zipWith, List.getElem_map, List.getElem_range,
        List.getElem_tail, List.getElem_take, List.getElem_take,
        List.getD_eq_getElem _ _ hi1p, List.getD_eq_getElem _ _ hi0p]
  · have h20 : min 20 packets.length - 1 = 0 := by omega
    rw [h20]
    rfl

/-- The size sequence determines emptiness of the packet group. -/
theorem packetSizes_eq_nil_iff (packets : List Packet) :
    packetSizes packets = [] ↔ packets = [] := by
  unfold packetSizes
  rw [List.map_eq_nil_iff, List.take_eq_nil_iff]
  constructor
  · rintro (h | h)
    · cases h
    · exact h
  · intro h
    exact Or.inr h

/-- C1: the fingerprint of an empty packet group is the empty string; the
implemented fingerprint coincides with its specification wording
(first-20 wire lengths, truncated-toward-zero millisecond inter-arrival
times, `"sizes:...;times:..."` serialization, first 32 hex characters of
the SHA-256 digest); and the fingerprint is a pure function of the
size/timing sequence — equal sequences yield equal fingerprints. -/
theorem flow_fingerprint_spec :
    calculate_flow_fingerprint [] = "" ∧
    (∀ packets : List Packet,
      calculate_flow_fingerprint packets = fingerprint_spec packets) ∧
    (∀ p q : List Packet, packetSizes p = packetSizes q →
      interArrivalTimes p = interArrivalTimes q →
      calculate_flow_fingerprint p = calculate_flow_fingerprint q) := by
  refine ⟨rfl, ?_, ?_⟩
  · intro packets
    unfold calculate_flow_fingerprint fingerprint_spec
    split_ifs with h
    · rfl
    · simp only []
      unfold fingerprintString packetSizes
      rw [interArrivalTimes_eq]
  · intro p q hsz htm
    unfold calculate_flow_fingerprint
    have hiff : p = [] ↔ q = [] := by
      rw [← packetSizes_eq_nil_iff, ← packetSizes_eq_nil_iff, hsz]
    split_ifs with hp hq hq
    · rfl
    · exact absurd (hiff.mp hp) hq
    · exact absurd (hiff.mpr hq) hp
    · unfold fingerprintString
      rw [hsz, htm]

/-- Witness for C1: two packet groups with identical sizes and identical
inter-arrival times but different absolute timestamps share the same
fingerprint. -/
theorem flow_fingerprint_spec_witness :
    calculate_flow_fingerprint [⟨10, 0⟩, ⟨20, 1⟩] =
      calculate_flow_fingerprint [⟨10, 5⟩, ⟨20, 6⟩] :=
  flow_fingerprint_spec.2.2 [⟨10, 0⟩, ⟨20, 1⟩] [⟨10, 5⟩, ⟨20, 6⟩] rfl
    (by
      unfold interArrivalTimes truncTowardZero
      norm_num)

end TorUnveil
